import Mathlib

/-!
# Verification of the P47H vault engine (vault-js)

Shallow embedding of the client-side encrypted identity vault core from
`packages/vault-js`: the domain types (`domain/types.ts`), the error classes
(`domain/errors.ts`), the session manager
(`application/services/SessionManager.ts`), the use cases
(`application/use-cases/LoginUseCase.ts`, `RecoverAccountUseCase.ts`,
`RegisterIdentityUseCase.ts`, `SecretManagementUseCase.ts`) and the facade
(`logic/VaultFacade.ts`; `logic/VaultService.ts` behaves identically at every
point used here).

Modelling conventions:
* `Uint8Array` byte strings are `List Nat`.
* The WASM crypto adapter (`adapters/WasmCryptoAdapter.ts`) is a port whose
  primitives live outside the engine; it is a parameter (`CryptoPort`).  An
  operation of the adapter that throws `CryptoError` on failure is modelled
  as returning `Option`, with `none` standing for the throw; the engine code
  turns `none` into the exact error the corresponding TypeScript path
  produces (a caught-and-translated error, or the adapter's own
  `CryptoError` when the call site has no try/catch).
* `JSON.stringify ∘ TextEncoder.encode` and `TextDecoder.decode ∘ JSON.parse`
  on the internal payload, and `btoa`/`atob` base64 transport, are opaque
  environment functions (`Env`); `none` from the parser models the
  `SyntaxError` thrown by `JSON.parse`.
* `Date.now()` is the environment's `now`.
* Thrown exceptions do not roll back heap state, so every stateful operation
  returns `Except VErr α × VaultState`: the error outcome together with the
  state as it is at the moment of the throw.
* The pluggable `IStorage` port is modelled as an association list with the
  semantics of the in-memory `Map`-backed store used by the repository
  (insertion-ordered keys, `save` upserts, `get` returns `none` when the key
  is absent).
-/

namespace P47h

/-- Byte strings (`Uint8Array`). -/
abbrev Bytes := List Nat

/-! ## Record<string,string> semantics (JS plain objects used as maps) -/

/-- `obj[k] = v` on a `Record<string,string>`: replace the entry in place
keeping its insertion position, else append (JS property order). -/
def recSet : List (String × String) → String → String → List (String × String)
  | [], k, v => [(k, v)]
  | p :: rest, k, v => if p.1 = k then (k, v) :: rest else p :: recSet rest k v

/-- `obj[k] ?? null` on a `Record<string,string>`. -/
def recGet : List (String × String) → String → Option String
  | [], _ => none
  | p :: rest, k => if p.1 = k then some p.2 else recGet rest k

/-- `delete obj[k]` on a `Record<string,string>`. -/
def recDel : List (String × String) → String → List (String × String)
  | [], _ => []
  | p :: rest, k => if p.1 = k then recDel rest k else p :: recDel rest k

/-! ## Domain types (`domain/types.ts`, `application/types.ts`) -/

/-- `VaultInternalData` (`application/types.ts`): the plaintext JSON payload
protected by the envelope AEAD layer. -/
structure VaultInternalData where
  did : String
  wrappedSecret : String
  salt : String
  secrets : List (String × String)
  createdAt : Nat
deriving DecidableEq, Repr

/-- `EncryptedVaultBlob` (`domain/types.ts`): the persisted envelope. -/
structure EncryptedVaultBlob where
  version : Nat
  did : String
  salt : String
  wrappedData : String
  recoveryBlob : Option String
  updatedAt : Nat
deriving DecidableEq, Repr

/-- `IdentityInfo` (`domain/types.ts`). -/
structure IdentityInfo where
  did : String
  publicKey : Bytes
deriving DecidableEq, Repr

/-- `RegistrationResult` (`domain/types.ts`). -/
structure RegistrationResult where
  did : String
  recoveryCode : String
deriving DecidableEq, Repr

/-- `RecoveryOptions` (`domain/types.ts`).  `rotateRecoveryCode` carries its
call-site default `false` already applied. -/
structure RecoveryOptions where
  recoveryCode : String
  newPassword : String
  did : Option String
  rotateRecoveryCode : Bool
deriving DecidableEq, Repr

/-- `RecoveryResult` (`domain/types.ts`). -/
structure RecoveryResult where
  did : String
  newRecoveryCode : Option String
deriving DecidableEq, Repr

/-! ## Error classes (`domain/errors.ts`)

Each TypeScript error class is one constructor; the plain `VaultError`
constructor carries its `message` and `code` arguments (codes used by the
engine: CORRUPT_DATA, INTEGRITY_ERROR, DISPOSED, STORAGE_ERROR,
RECOVERY_UNAVAILABLE).  `jsError` stands for a native JavaScript exception
that is not a `VaultError` (e.g. the `SyntaxError` of an uncaught
`JSON.parse`). -/
inductive VErr where
  | vaultError (message code : String)
  | initializationError (message : String)
  | authenticationError (message : String)
  | notAuthenticatedError
  | storageError (message : String)
  | cryptoError (message : String)
  | jsError (message : String)
deriving DecidableEq, Repr

/-! ## Ports and environment -/

/-- The crypto port (`application/ports/ICryptoPort.ts`), implemented by
`adapters/WasmCryptoAdapter.ts` over the WASM module.  `none` results model
the adapter throwing `CryptoError`.  `createIdentity` and client handles are
opaque naturals; the CSPRNG is a deterministic stand-in (no claim depends on
randomness). -/
structure CryptoPort where
  encryptVault : Bytes → String → Bytes
  decryptVault : Bytes → String → Option Bytes
  deriveSessionKey : String → Bytes → Bytes
  createIdentity : Nat
  clientDid : Nat → String
  clientPublicKey : Nat → Bytes
  exportWrappedSecret : Nat → Bytes → Bytes
  restoreIdentity : Bytes → Bytes → Option Nat
  signData : Nat → Bytes → Bytes
  getRandomValues : Nat → Bytes

/-- Ambient collaborators of the engine: the crypto port, the base64
transport codec (`utils/encoding.ts`), the JSON codec for the internal
payload, and the current time. -/
structure Env where
  crypto : CryptoPort
  toBase64 : Bytes → String
  fromBase64 : String → Bytes
  serializeInternal : VaultInternalData → Bytes
  parseInternal : Bytes → Option VaultInternalData
  now : Nat

/-! ## Storage port (`domain/IStorage.ts`) -/

/-- Storage contents: identifier → persisted envelope, insertion-ordered. -/
abbrev Storage := List (String × EncryptedVaultBlob)

/-- `IStorage.get`: `null` when absent. -/
def Storage.get : Storage → String → Option EncryptedVaultBlob
  | [], _ => none
  | (k', v) :: rest, k => if k' = k then some v else Storage.get rest k

/-- `IStorage.save`: upsert. -/
def Storage.save : Storage → String → EncryptedVaultBlob → Storage
  | [], k, b => [(k, b)]
  | (k', v) :: rest, k, b =>
    if k' = k then (k, b) :: rest else (k', v) :: Storage.save rest k b

/-- `IStorage.listKeys`. -/
def Storage.listKeys (st : Storage) : List String := st.map Prod.fst

/-! ## Session manager (`application/services/SessionManager.ts`) -/

/-- `SessionData` (`SessionManager.ts`): the in-memory authenticated
session. -/
structure SessionData where
  client : Nat
  sessionKey : Bytes
  did : String
  password : String
  secrets : List (String × String)
deriving DecidableEq, Repr

namespace SessionManager

/-- `SessionManager.clear` (lines 77-86): free the WASM client (a no-op on
the engine state; the handle lives in WASM memory) and drop the session. -/
def clear (_s : Option SessionData) : Option SessionData := none

/-- `SessionManager.establish` (lines 55-72): clear any existing session,
then store the new bundle; `secrets` is taken by spread copy. -/
def establish (s : Option SessionData) (client : Nat) (sessionKey : Bytes)
    (did password : String) (secrets : List (String × String)) :
    Option SessionData :=
  let _ := clear s
  some { client, sessionKey, did, password, secrets }

/-- `SessionManager.isAuthenticated` (lines 91-93). -/
def isAuthenticated (s : Option SessionData) : Bool := s.isSome

/-- `SessionManager.getDid` (lines 111-114). -/
def getDid : Option SessionData → Except VErr String
  | none => .error .notAuthenticatedError
  | some sess => .ok sess.did

/-- `SessionManager.getClient` (lines 121-124). -/
def getClient : Option SessionData → Except VErr Nat
  | none => .error .notAuthenticatedError
  | some sess => .ok sess.client

/-- `SessionManager.getPassword` (lines 141-144). -/
def getPassword : Option SessionData → Except VErr String
  | none => .error .notAuthenticatedError
  | some sess => .ok sess.password

/-- `SessionManager.getSecret` (lines 153-156). -/
def getSecret (s : Option SessionData) (key : String) :
    Except VErr (Option String) :=
  match s with
  | none => .error .notAuthenticatedError
  | some sess => .ok (recGet sess.secrets key)

/-- `SessionManager.getAllSecrets` (lines 186-189): spread copy. -/
def getAllSecrets : Option SessionData → Except VErr (List (String × String))
  | none => .error .notAuthenticatedError
  | some sess => .ok sess.secrets

end SessionManager

/-! ## Engine state

The facade's fields (`logic/VaultFacade.ts`): the session manager, the
storage adapter contents, and the two lifecycle flags. -/

structure VaultState where
  session : Option SessionData
  storage : Storage
  isInitialized : Bool
  isDisposed : Bool
deriving DecidableEq, Repr

/-! ## Login use case (`application/use-cases/LoginUseCase.ts`) -/

/-- `LoginInput` (`LoginUseCase.ts`). -/
structure LoginInput where
  password : String
  did : Option String
deriving DecidableEq, Repr

/-- Step 1 of `LoginUseCase.execute` (lines 54-62) and of
`RecoverAccountUseCase.execute` (lines 44-52), which are textually
identical up to the error message: `did ?? ''`, and a falsy (empty or
absent) identifier falls back to the first key of `storage.listKeys()`. -/
def resolveTargetDid (did : Option String) (storage : Storage)
    (emptyMsg : String) : Except VErr String :=
  if did.getD "" = "" then
    match Storage.listKeys storage with
    | [] => .error (.authenticationError emptyMsg)
    | k :: _ => .ok k
  else .ok (did.getD "")

namespace LoginUseCase

/-- `LoginUseCase.execute` (lines 51-109).  Step numbering follows the
source.  Step 3 wraps `crypto.decryptVault` in a try/catch that maps every
failure to `AuthenticationError`; step 6 calls `crypto.restoreIdentity`
with no surrounding try/catch, so the adapter's `CryptoError` ("Failed to
restore identity from wrapped secret", `WasmCryptoAdapter.ts` lines
326-341) propagates. -/
def execute (env : Env) (input : LoginInput) (st : VaultState) :
    Except VErr IdentityInfo × VaultState :=
  -- 1. Resolve target DID
  match resolveTargetDid input.did st.storage "No identities found in storage" with
  | .error e => (.error e, st)
  | .ok targetDid =>
    -- 2. Retrieve encrypted blob
    match Storage.get st.storage targetDid with
    | none =>
      (.error (.authenticationError ("Identity " ++ targetDid ++ " not found")), st)
    | some storedBlob =>
      -- 3. Decrypt outer blob (catch → AuthenticationError)
      match env.crypto.decryptVault (env.fromBase64 storedBlob.wrappedData)
          input.password with
      | none => (.error (.authenticationError "Invalid password or corrupted vault"), st)
      | some decryptedBytes =>
        -- 4. Parse internal data (catch → CORRUPT_DATA)
        match env.parseInternal decryptedBytes with
        | none => (.error (.vaultError "Vault data corruption: Invalid JSON" "CORRUPT_DATA"), st)
        | some internalData =>
          -- 5. Integrity check
          if internalData.did ≠ targetDid then
            (.error (.vaultError "Integrity error: DID mismatch inside vault" "INTEGRITY_ERROR"), st)
          else
            -- 6. Restore WASM client (no try/catch here)
            let salt := env.fromBase64 internalData.salt
            let sessionKey := env.crypto.deriveSessionKey input.password salt
            let wrappedSecret := env.fromBase64 internalData.wrappedSecret
            match env.crypto.restoreIdentity wrappedSecret sessionKey with
            | none => (.error (.cryptoError "Failed to restore identity from wrapped secret"), st)
            | some client =>
              -- 7. Establish session
              (.ok { did := targetDid,
                     publicKey := env.crypto.clientPublicKey client },
               { st with session := (SessionManager.establish st.session client
                   sessionKey targetDid input.password internalData.secrets) })

end LoginUseCase

/-! ## Recovery-code generation (`application/types.ts`,
`RegisterIdentityUseCase.ts` / `RecoverAccountUseCase.ts` helper) -/

/-- Source constant `RECOVERY_CODE_PREFIX` (`application/types.ts`). -/
def recoveryCodeRK : String := "RK"

/-- Source constant `RECOVERY_CODE_BYTES` (`application/types.ts`). -/
def recoveryCodeBytes : Nat := 16

/-- One uppercase hex digit. -/
def hexDigitUpper (n : Nat) : Char :=
  "0123456789ABCDEF".toList.getD n '0'

/-- `b.toString(16).padStart(2, '0').toUpperCase()` for a byte. -/
def byteToHexUpper (b : Nat) : String :=
  String.mk [hexDigitUpper (b / 16 % 16), hexDigitUpper (b % 16)]

/-- `hex.slice(a, b)` on a JS string. -/
def strSlice (s : String) (a b : Nat) : String :=
  String.mk ((s.toList.drop a).take (b - a))

/-- `generateRecoveryCode` (identical private helper of
`RegisterIdentityUseCase.ts` lines 250-258 and `RecoverAccountUseCase.ts`
lines 123-130). -/
def generateRecoveryCode (env : Env) : String :=
  let bytes := env.crypto.getRandomValues recoveryCodeBytes
  let hex := String.join (bytes.map byteToHexUpper)
  recoveryCodeRK ++ "-" ++ strSlice hex 0 8 ++ "-" ++ strSlice hex 8 16 ++
    "-" ++ strSlice hex 16 24 ++ "-" ++ strSlice hex 24 32

/-! ## Register use case (`application/use-cases/RegisterIdentityUseCase.ts`) -/

namespace RegisterIdentityUseCase

/-- `RegisterIdentityUseCase.execute` (lines 198-244). -/
def execute (env : Env) (password : String) (st : VaultState) :
    Except VErr RegistrationResult × VaultState :=
  -- 1. Generate identity and derive encryption keys
  let client := env.crypto.createIdentity
  let did := env.crypto.clientDid client
  let salt := env.crypto.getRandomValues 16
  let sessionKey := env.crypto.deriveSessionKey password salt
  -- 2. Export wrapped (encrypted) private key
  let wrappedSecret := env.crypto.exportWrappedSecret client sessionKey
  -- 3. Prepare internal vault data structure
  let internalData : VaultInternalData :=
    { did, wrappedSecret := env.toBase64 wrappedSecret,
      salt := env.toBase64 salt, secrets := [], createdAt := env.now }
  let internalBytes := env.serializeInternal internalData
  -- 4. Create encrypted copies for password and recovery access
  let encryptedMain := env.crypto.encryptVault internalBytes password
  let recoveryCode := generateRecoveryCode env
  let encryptedRecovery := env.crypto.encryptVault internalBytes recoveryCode
  -- 5. Persist to storage
  let storageBlob : EncryptedVaultBlob :=
    { version := 1, did, salt := env.toBase64 salt,
      wrappedData := env.toBase64 encryptedMain,
      recoveryBlob := some (env.toBase64 encryptedRecovery),
      updatedAt := env.now }
  let st1 := { st with storage := Storage.save st.storage did storageBlob }
  -- 6. Establish authenticated session
  let session1 := SessionManager.establish st1.session client sessionKey did
    password []
  (.ok { did, recoveryCode }, { st1 with session := session1 })

end RegisterIdentityUseCase

/-! ## Recover use case (`application/use-cases/RecoverAccountUseCase.ts`) -/

namespace RecoverAccountUseCase

/-- `RecoverAccountUseCase.execute` (lines 41-118).  Note: the use case
only rewrites the envelope; it never touches the session. -/
def execute (env : Env) (options : RecoveryOptions) (st : VaultState) :
    Except VErr RecoveryResult × VaultState :=
  -- 1. Resolve target DID
  match resolveTargetDid options.did st.storage "No vaults found" with
  | .error e => (.error e, st)
  | .ok targetDid =>
    -- 2. Get stored blob
    match Storage.get st.storage targetDid with
    | none => (.error (.authenticationError ("Identity " ++ targetDid ++ " not found")), st)
    | some stored =>
      match stored.recoveryBlob with
      | none =>
        (.error (.vaultError "Recovery not available for this identity. It may have been created with an older SDK version." "RECOVERY_UNAVAILABLE"), st)
      | some recoveryBlob =>
        -- 3. Decrypt using recovery code (catch → AuthenticationError)
        match env.crypto.decryptVault (env.fromBase64 recoveryBlob)
            options.recoveryCode with
        | none => (.error (.authenticationError "Invalid Recovery Code"), st)
        | some decryptedBytes =>
          -- 4. Parse internal data, structure validation only
          match env.parseInternal decryptedBytes with
          | none => (.error (.vaultError "Vault data corruption during recovery" "CORRUPT_DATA"), st)
          | some _internalData =>
            -- 5. Re-encrypt with new password
            let newEncryptedMain :=
              env.crypto.encryptVault decryptedBytes options.newPassword
            -- 6. Handle recovery code rotation; 7. Update storage;
            -- 8. Return result, newRecoveryCode only when generated
            if options.rotateRecoveryCode then
              let code := generateRecoveryCode env
              let stored1 :=
                { stored with wrappedData := env.toBase64 newEncryptedMain,
                              recoveryBlob := some (env.toBase64
                                (env.crypto.encryptVault decryptedBytes code)),
                              updatedAt := env.now }
              (.ok { did := targetDid, newRecoveryCode := some code },
               { st with storage := Storage.save st.storage targetDid stored1 })
            else
              let stored1 :=
                { stored with wrappedData := env.toBase64 newEncryptedMain,
                              recoveryBlob := some recoveryBlob,
                              updatedAt := env.now }
              (.ok { did := targetDid, newRecoveryCode := none },
               { st with storage := Storage.save st.storage targetDid stored1 })

end RecoverAccountUseCase

/-! ## Secret management use case
(`application/use-cases/SecretManagementUseCase.ts`) -/

namespace SecretManagementUseCase

/-- `SecretManagementUseCase.saveSecret` (lines 41-80).  The session cache
update (`session.setSecret`) happens before the store read/write; the
`NOTE` in the source states that the recovery blob is not updated.  The
`decryptVault` call and the `JSON.parse` here have no surrounding
try/catch, so their failures propagate as the adapter's `CryptoError` and
as a native `SyntaxError`. -/
def saveSecret (env : Env) (key value : String) (st : VaultState) :
    Except VErr Unit × VaultState :=
  match st.session with
  | none => (.error .notAuthenticatedError, st)
  | some sess =>
    let did := sess.did
    let password := sess.password
    -- Update in-memory cache (session.setSecret)
    let sess1 := { sess with secrets := recSet sess.secrets key value }
    let st1 := { st with session := some sess1 }
    -- Retrieve and update persisted blob
    match Storage.get st1.storage did with
    | none => (.error (.vaultError "Storage corruption during save" "STORAGE_ERROR"), st1)
    | some stored =>
      -- Decrypt, update, re-encrypt
      match env.crypto.decryptVault (env.fromBase64 stored.wrappedData) password with
      | none => (.error (.cryptoError "Vault decryption failed: Invalid password or corrupted data"), st1)
      | some decrypted =>
        match env.parseInternal decrypted with
        | none => (.error (.jsError "SyntaxError"), st1)
        | some originalData =>
          let originalData1 :=
            { originalData with secrets := sess1.secrets, createdAt := env.now }
          let updatedBytes := env.serializeInternal originalData1
          -- Re-encrypt main copy; recovery blob is NOT updated
          let stored1 :=
            { stored with
                wrappedData := env.toBase64 (env.crypto.encryptVault updatedBytes password),
                updatedAt := env.now }
          (.ok (), { st1 with storage := Storage.save st1.storage did stored1 })

/-- `SecretManagementUseCase.getSecret` (lines 89-94): reads the session
cache only. -/
def getSecret (st : VaultState) (key : String) : Except VErr (Option String) :=
  if !(SessionManager.isAuthenticated st.session) then
    .error .notAuthenticatedError
  else
    SessionManager.getSecret st.session key

/-- `SecretManagementUseCase.deleteSecret` (lines 103-135): removes the key
from the session cache first, then re-persists the main ciphertext. -/
def deleteSecret (env : Env) (key : String) (st : VaultState) :
    Except VErr Unit × VaultState :=
  match st.session with
  | none => (.error .notAuthenticatedError, st)
  | some sess =>
    let did := sess.did
    let password := sess.password
    -- Remove from session cache first
    let sess1 := { sess with secrets := recDel sess.secrets key }
    let st1 := { st with session := some sess1 }
    -- Re-persist without this secret
    match Storage.get st1.storage did with
    | none => (.error (.vaultError "Storage corruption during delete" "STORAGE_ERROR"), st1)
    | some stored =>
      match env.crypto.decryptVault (env.fromBase64 stored.wrappedData) password with
      | none => (.error (.cryptoError "Vault decryption failed: Invalid password or corrupted data"), st1)
      | some decrypted =>
        match env.parseInternal decrypted with
        | none => (.error (.jsError "SyntaxError"), st1)
        | some originalData =>
          let originalData1 :=
            { originalData with secrets := recDel originalData.secrets key,
                                createdAt := env.now }
          let updatedBytes := env.serializeInternal originalData1
          let stored1 :=
            { stored with
                wrappedData := env.toBase64 (env.crypto.encryptVault updatedBytes password),
                updatedAt := env.now }
          (.ok (), { st1 with storage := Storage.save st1.storage did stored1 })

end SecretManagementUseCase

/-! ## Facade (`logic/VaultFacade.ts`)

`logic/VaultService.ts` (the deprecated monolithic class) implements the
same guard chain (its lines 619-637) and the same auto-login inside
`recoverAccount` (its lines 429-431); every theorem below about the facade
holds verbatim for it. -/

namespace VaultFacade

/-- `ensureNotDisposed` (lines 325-329). -/
def ensureNotDisposed (st : VaultState) : Except VErr Unit :=
  if st.isDisposed then
    .error (.vaultError "VaultFacade has been disposed" "DISPOSED")
  else .ok ()

/-- `ensureInitialized` (lines 331-336). -/
def ensureInitialized (st : VaultState) : Except VErr Unit :=
  match ensureNotDisposed st with
  | .error e => .error e
  | .ok _ =>
    if !st.isInitialized then
      .error (.initializationError "VaultFacade not initialized. Call init() first.")
    else .ok ()

/-- `ensureAuthenticated` (lines 338-343). -/
def ensureAuthenticated (st : VaultState) : Except VErr Unit :=
  match ensureInitialized st with
  | .error e => .error e
  | .ok _ =>
    if !(SessionManager.isAuthenticated st.session) then
      .error .notAuthenticatedError
    else .ok ()

/-- `VaultFacade.init` (lines 133-152): idempotent; the WASM adapter load
(`crypto.init`) is external and modelled as succeeding. -/
def init (st : VaultState) : Except VErr Unit × VaultState :=
  match ensureNotDisposed st with
  | .error e => (.error e, st)
  | .ok _ =>
    if st.isInitialized then (.ok (), st)
    else (.ok (), { st with isInitialized := true })

/-- `VaultFacade.register` (lines 194-197). -/
def register (env : Env) (password : String) (st : VaultState) :
    Except VErr RegistrationResult × VaultState :=
  match ensureInitialized st with
  | .error e => (.error e, st)
  | .ok _ => RegisterIdentityUseCase.execute env password st

/-- `VaultFacade.login` (lines 207-211). -/
def login (env : Env) (password : String) (did : Option String)
    (st : VaultState) : Except VErr IdentityInfo × VaultState :=
  match ensureInitialized st with
  | .error e => (.error e, st)
  | .ok _ => LoginUseCase.execute env { password, did } st

/-- `VaultFacade.recoverAccount` (lines 220-228): runs the recover use case
and then auto-logins with the new password. -/
def recoverAccount (env : Env) (options : RecoveryOptions) (st : VaultState) :
    Except VErr RecoveryResult × VaultState :=
  match ensureInitialized st with
  | .error e => (.error e, st)
  | .ok _ =>
    match RecoverAccountUseCase.execute env options st with
    | (.error e, st1) => (.error e, st1)
    | (.ok result, st1) =>
      -- Auto-login after recovery
      match login env options.newPassword (some result.did) st1 with
      | (.error e, st2) => (.error e, st2)
      | (.ok _, st2) => (.ok result, st2)

/-- `VaultFacade.lock` (lines 233-235): `session.clear()`; no guard, no
throw path. -/
def lock (st : VaultState) : Except VErr Unit × VaultState :=
  (.ok (), { st with session := SessionManager.clear st.session })

/-- `VaultFacade.isAuthenticated` (lines 240-242): a total boolean query,
no guard, no throw path. -/
def isAuthenticated (st : VaultState) : Bool :=
  SessionManager.isAuthenticated st.session && !st.isDisposed

/-- `VaultFacade.getDid` (lines 249-252). -/
def getDid (st : VaultState) : Except VErr String :=
  match ensureAuthenticated st with
  | .error e => .error e
  | .ok _ => SessionManager.getDid st.session

/-- `VaultFacade.getStoredIdentities` (lines 257-260). -/
def getStoredIdentities (st : VaultState) : Except VErr (List String) :=
  match ensureInitialized st with
  | .error e => .error e
  | .ok _ => .ok (Storage.listKeys st.storage)

/-- `VaultFacade.sign` (lines 273-276). -/
def sign (env : Env) (data : Bytes) (st : VaultState) : Except VErr Bytes :=
  match ensureAuthenticated st with
  | .error e => .error e
  | .ok _ =>
    match SessionManager.getClient st.session with
    | .error e => .error e
    | .ok client => .ok (env.crypto.signData client data)

/-- `VaultFacade.saveSecret` (lines 289-292). -/
def saveSecret (env : Env) (key secret : String) (st : VaultState) :
    Except VErr Unit × VaultState :=
  match ensureInitialized st with
  | .error e => (.error e, st)
  | .ok _ => SecretManagementUseCase.saveSecret env key secret st

/-- `VaultFacade.getSecret` (lines 301-304). -/
def getSecret (env : Env) (key : String) (st : VaultState) :
    Except VErr (Option String) :=
  match ensureInitialized st with
  | .error e => .error e
  | .ok _ =>
    let _ := env
    SecretManagementUseCase.getSecret st key

/-- `VaultFacade.dispose` (lines 313-319): idempotent; locks, then marks the
engine unusable. -/
def dispose (st : VaultState) : VaultState :=
  if st.isDisposed then st
  else
    { st with session := SessionManager.clear st.session,
              isInitialized := false, isDisposed := true }

end VaultFacade

/-! ## SessionManager with explicit byte buffers

A refinement of `application/services/SessionManager.ts` that makes the
JavaScript reference semantics of `Uint8Array` explicit, in order to talk
about the contents of the session-key buffer across teardown: `Uint8Array`
values live in a heap of mutable byte buffers addressed by reference, and
the session holds a reference.  `clear()` (lines 77-86) executes exactly
two effects: `this._session.client.free()` (a call into WASM that releases
the WASM-side handle) and `this._session = null`; it contains no write to
any JavaScript-side buffer, which the definition of `HeapSession.clear`
below makes visible — the heap component is returned unchanged.
`VaultService.lock` (`logic/VaultService.ts` lines 449-464) likewise only
assigns `null` to `_sessionKey`, `_currentDid`, `_secretsCache` and
`_passwordCache` after freeing the client. -/

/-- A session whose `sessionKey` field is a reference into the buffer
heap. -/
structure SessionDataRef where
  client : Nat
  sessionKeyRef : Nat
  did : String
  password : String
  secrets : List (String × String)
deriving DecidableEq, Repr

/-- SessionManager state together with the JavaScript buffer heap and the
set of WASM handles released by `free()`. -/
structure HeapSessionState where
  heap : List (Nat × Bytes)
  freedClients : List Nat
  session : Option SessionDataRef
deriving DecidableEq, Repr

namespace HeapSession

/-- Contents of a buffer. -/
def readBuf (h : List (Nat × Bytes)) (r : Nat) : Option Bytes :=
  (h.find? (fun p => p.1 = r)).map Prod.snd

/-- `SessionManager.clear` with the heap explicit: free the WASM client,
drop the session reference.  No heap write occurs. -/
def clear (st : HeapSessionState) : HeapSessionState :=
  match st.session with
  | none => st
  | some s =>
    { st with freedClients := s.client :: st.freedClients, session := none }

/-- `SessionManager.establish` with the heap explicit: clear first, then
store the new bundle. -/
def establish (st : HeapSessionState) (client : Nat) (sessionKeyRef : Nat)
    (did password : String) (secrets : List (String × String)) :
    HeapSessionState :=
  let st1 := clear st
  { st1 with
      session := some { client, sessionKeyRef, did, password, secrets } }

end HeapSession

/-! ## Concrete instantiation for witnesses and counterexamples

A stub crypto provider and codec in the spirit of
`tests/mocks/MockWasmAdapter.ts` (the spec itself allows substituting a
stub crypto in its end-to-end scenarios): a ciphertext is the password's
character codes length-prefixed onto the plaintext, so that decryption
succeeds exactly when the password matches; the payload codec is an
executable injective encoder/decoder; base64 maps byte values to
characters. -/

/-- Encode a string as length-prefixed character codes. -/
def encStr (s : String) : Bytes :=
  s.toList.length :: s.toList.map Char.toNat

/-- Decode a length-prefixed string, returning the remainder. -/
def decStr : Bytes → Option (String × Bytes)
  | [] => none
  | n :: rest =>
    if rest.length < n then none
    else some (String.mk ((rest.take n).map Char.ofNat), rest.drop n)

/-- Encode a secrets map. -/
def encPairs (m : List (String × String)) : Bytes :=
  m.length :: (m.map (fun p => encStr p.1 ++ encStr p.2)).flatten

/-- Decode `n` key/value pairs. -/
def decPairsAux : Nat → Bytes → Option (List (String × String) × Bytes)
  | 0, l => some ([], l)
  | n + 1, l =>
    match decStr l with
    | none => none
    | some (k, l1) =>
      match decStr l1 with
      | none => none
      | some (v, l2) =>
        match decPairsAux n l2 with
        | none => none
        | some (rest, l3) => some ((k, v) :: rest, l3)

/-- Test payload serializer (stands in for
`TextEncoder.encode(JSON.stringify(data))`). -/
def encPayload (d : VaultInternalData) : Bytes :=
  encStr d.did ++ encStr d.wrappedSecret ++ encStr d.salt ++
    encPairs d.secrets ++ [d.createdAt]

/-- Test payload parser (stands in for
`JSON.parse(new TextDecoder().decode(bytes))`). -/
def decPayload (l : Bytes) : Option VaultInternalData :=
  match decStr l with
  | none => none
  | some (did, l1) =>
    match decStr l1 with
    | none => none
    | some (wrappedSecret, l2) =>
      match decStr l2 with
      | none => none
      | some (salt, l3) =>
        match l3 with
        | [] => none
        | n :: l4 =>
          match decPairsAux n l4 with
          | none => none
          | some (secrets, l5) =>
            match l5 with
            | [createdAt] =>
              some { did, wrappedSecret, salt, secrets, createdAt }
            | _ => none

/-- Stub AEAD seal: length-prefix the password characters onto the
plaintext. -/
def testSeal (pt : Bytes) (pw : String) : Bytes :=
  let p := pw.toList.map Char.toNat
  p.length :: (p ++ pt)

/-- Stub AEAD open: succeeds exactly when the password prefix matches. -/
def testOpen (ct : Bytes) (pw : String) : Option Bytes :=
  match ct with
  | [] => none
  | n :: rest =>
    let p := pw.toList.map Char.toNat
    if n = p.length ∧ rest.take n = p then some (rest.drop n) else none

/-- Stub crypto port: restore always succeeds on a non-empty wrapped blob
(like the mock adapter, whose `restoreIdentity` always succeeds). -/
def testCrypto : CryptoPort where
  encryptVault := testSeal
  decryptVault := testOpen
  deriveSessionKey := fun pw salt => (pw.toList.map Char.toNat) ++ salt
  createIdentity := 7
  clientDid := fun c => "did:test:" ++ toString c
  clientPublicKey := fun c => [c, 1, 2]
  exportWrappedSecret := fun c key => c :: key
  restoreIdentity := fun w _k => match w with
    | [] => none
    | c :: _ => some c
  signData := fun c data => c :: data.reverse
  getRandomValues := fun n => List.replicate n 42

/-- Stub environment. -/
def testEnv : Env where
  crypto := testCrypto
  toBase64 := fun l => String.mk (l.map Char.ofNat)
  fromBase64 := fun s => s.toList.map Char.toNat
  serializeInternal := encPayload
  parseInternal := decPayload
  now := 1000

/-! ### Concrete scenario data -/

/-- A registration-time internal payload for identity "D". -/
def exPayload : VaultInternalData where
  did := "D"
  wrappedSecret := testEnv.toBase64 [7, 9]
  salt := testEnv.toBase64 [3, 4]
  secrets := [("k", "v")]
  createdAt := 5

/-- Its serialized bytes. -/
def exPayloadBytes : Bytes := encPayload exPayload

/-- A persisted envelope for "D": main ciphertext under password "oldpw",
recovery ciphertext under recovery code "RC1". -/
def exBlob : EncryptedVaultBlob where
  version := 1
  did := "D"
  salt := testEnv.toBase64 [3, 4]
  wrappedData := testEnv.toBase64 (testSeal exPayloadBytes "oldpw")
  recoveryBlob := some (testEnv.toBase64 (testSeal exPayloadBytes "RC1"))
  updatedAt := 50

/-- Initialized, locked engine holding the envelope of "D". -/
def exState : VaultState where
  session := none
  storage := [("D", exBlob)]
  isInitialized := true
  isDisposed := false

/-- `exBlob` with one byte of its main ciphertext flipped. -/
def tamperedBlob : EncryptedVaultBlob :=
  { exBlob with
      wrappedData := testEnv.toBase64
        (match testSeal exPayloadBytes "oldpw" with
         | [] => []
         | b :: rest => (b + 1) :: rest) }

/-- Initialized, locked engine holding the tampered envelope of "D". -/
def tamperedState : VaultState :=
  { exState with storage := [("D", tamperedBlob)] }

/-- An authenticated session for "D" matching `exBlob`. -/
def exSession : SessionData where
  client := 7
  sessionKey := [1, 2]
  did := "D"
  password := "oldpw"
  secrets := [("k", "v")]

/-- Initialized, unlocked engine holding the envelope of "D". -/
def exAuthState : VaultState where
  session := some exSession
  storage := [("D", exBlob)]
  isInitialized := true
  isDisposed := false

/-- Recovery options used against `exState`. -/
def c1Options : RecoveryOptions where
  recoveryCode := "RC1"
  newPassword := "pw2"
  did := some "D"
  rotateRecoveryCode := false

/-- A payload whose inner identifier "E" differs from its storage key. -/
def exPayloadE : VaultInternalData where
  did := "E"
  wrappedSecret := testEnv.toBase64 [7, 9]
  salt := testEnv.toBase64 [3, 4]
  secrets := []
  createdAt := 5

/-- Envelope stored under "D" whose decrypted payload says "E". -/
def exBlobE : EncryptedVaultBlob where
  version := 1
  did := "D"
  salt := testEnv.toBase64 [3, 4]
  wrappedData := testEnv.toBase64 (testSeal (encPayload exPayloadE) "oldpw")
  recoveryBlob := none
  updatedAt := 50

/-- Initialized engine holding the mismatched envelope. -/
def exStateE : VaultState where
  session := none
  storage := [("D", exBlobE)]
  isInitialized := true
  isDisposed := false

/-- Environment whose provider fails every private-key unwrap (the
claim-C4 path: AEAD-open of the envelope succeeds, the wrapped-key open
fails). -/
def c4Env : Env :=
  { testEnv with crypto := { testCrypto with restoreIdentity := fun _ _ => none } }

/-- A disposed engine, reached by disposing an initialized one. -/
def c6State : VaultState :=
  VaultFacade.dispose
    { session := none, storage := [("D", exBlob)],
      isInitialized := true, isDisposed := false }

/-- The session-key bytes of the heap-model scenario. -/
def c7Key : Bytes := [10, 20, 30, 40]

/-- Heap-model state: one live session whose session key lives in buffer 0. -/
def c7State : HeapSessionState where
  heap := [(0, c7Key)]
  freedClients := []
  session := some
    { client := 7, sessionKeyRef := 0, did := "D", password := "oldpw",
      secrets := [("k", "v")] }

/-- Authenticated engine whose persisted blob is missing (storage empty):
the claim-C8 failing-save scenario. -/
def c8State : VaultState where
  session := some exSession
  storage := []
  isInitialized := true
  isDisposed := false

/-- Initialized engine with empty storage. -/
def emptyStoreState : VaultState where
  session := none
  storage := []
  isInitialized := true
  isDisposed := false

/-- Disposed while also uninitialized and without a session. -/
def c10Disposed : VaultState where
  session := none
  storage := []
  isInitialized := false
  isDisposed := true

/-- Initialized but locked. -/
def c10Locked : VaultState where
  session := none
  storage := [("D", exBlob)]
  isInitialized := true
  isDisposed := false

/-- Never initialized, not disposed. -/
def c10Uninit : VaultState where
  session := none
  storage := []
  isInitialized := false
  isDisposed := false

/-- The error thrown by `ensureNotDisposed` (`VaultFacade.ts` line 327). -/
def disposedError : VErr :=
  .vaultError "VaultFacade has been disposed" "DISPOSED"

/-- The error thrown by `ensureInitialized` (`VaultFacade.ts` line 334). -/
def uninitializedError : VErr :=
  .initializationError "VaultFacade not initialized. Call init() first."

end P47h

deriving instance DecidableEq for Except

namespace P47h

/-! ## Helper lemmas -/

/-- Reading back from an upserted store. -/
theorem Storage.get_save (st : Storage) (k : String) (b : EncryptedVaultBlob)
    (d : String) :
    Storage.get (Storage.save st k b) d =
      if k = d then some b else Storage.get st d := by
  induction st with
  | nil =>
    by_cases h : k = d <;> simp [Storage.save, Storage.get, h]
  | cons p rest ih =>
    obtain ⟨k', v⟩ := p
    by_cases hk : k' = k
    · subst hk
      by_cases hd : k' = d <;> simp [Storage.save, Storage.get, hd]
    · by_cases hd : k' = d
      · subst hd
        have hkd : ¬ k = k' := fun h => hk h.symm
        simp [Storage.save, hk, Storage.get, hkd]
      · simp [Storage.save, hk, Storage.get, hd, ih]

/-- Reading the key just written into a record. -/
theorem recGet_recSet (m : List (String × String)) (k v : String) :
    recGet (recSet m k v) k = some v := by
  induction m with
  | nil => simp [recSet, recGet]
  | cons p rest ih =>
    by_cases hp : p.1 = k <;> simp [recSet, recGet, hp, ih]

/-- A passing `ensureInitialized` guard pins both lifecycle flags. -/
theorem ensureInitialized_ok (st : VaultState)
    (h : VaultFacade.ensureInitialized st = .ok ()) :
    st.isDisposed = false ∧ st.isInitialized = true := by
  unfold VaultFacade.ensureInitialized VaultFacade.ensureNotDisposed at h
  by_cases hd : st.isDisposed <;> by_cases hi : st.isInitialized <;>
    simp [hd, hi] at h ⊢

/-- A successful login holds a session and leaves the lifecycle flags
unchanged. -/
theorem loginUseCase_ok_shape (env : Env) (input : LoginInput)
    (st : VaultState) (info : IdentityInfo) (st' : VaultState)
    (h : LoginUseCase.execute env input st = (.ok info, st')) :
    st'.session.isSome = true ∧ st'.isDisposed = st.isDisposed := by
  unfold LoginUseCase.execute at h
  repeat' split at h
  all_goals rw [Prod.mk.injEq] at h
  all_goals obtain ⟨h1, h2⟩ := h
  all_goals first
    | exact absurd h1 (by simp)
    | (subst h2
       split at h1 <;>
         simp_all [SessionManager.establish, SessionManager.clear])

/-- A successful facade login holds a session and leaves `isDisposed`
unchanged. -/
theorem facadeLogin_ok_shape (env : Env) (password : String)
    (did : Option String) (st : VaultState) (info : IdentityInfo)
    (st' : VaultState)
    (h : VaultFacade.login env password did st = (.ok info, st')) :
    st'.session.isSome = true ∧ st'.isDisposed = st.isDisposed := by
  unfold VaultFacade.login at h
  split at h
  · simp at h
  · exact loginUseCase_ok_shape env _ st info st' h

/-- The recover use case never touches the session or the lifecycle
flags. -/
theorem recoverUseCase_preserves (env : Env) (options : RecoveryOptions)
    (st : VaultState) :
    (RecoverAccountUseCase.execute env options st).2.session = st.session ∧
    (RecoverAccountUseCase.execute env options st).2.isDisposed = st.isDisposed ∧
    (RecoverAccountUseCase.execute env options st).2.isInitialized = st.isInitialized := by
  unfold RecoverAccountUseCase.execute
  repeat' split
  all_goals simp

/-! ## Claim C1 -/

/-- C1 counterexample.  A successful `recoverAccount` on an initialized,
locked engine does establish a session: the facade auto-logins with the
new password (`VaultFacade.ts` line 225, "Auto-login after recovery"), so
immediately after recover returns the engine is authenticated — no
separate explicit login is needed. -/
theorem c1_counterexample :
    VaultFacade.isAuthenticated exState = false ∧
    (VaultFacade.recoverAccount testEnv c1Options exState).1 =
      .ok { did := "D", newRecoveryCode := none } ∧
    VaultFacade.isAuthenticated
      (VaultFacade.recoverAccount testEnv c1Options exState).2 = true := by
  decide

/-- C1 amended.  The recover use case itself never touches the session,
but `VaultFacade.recoverAccount` follows a successful recover with an
auto-login using the new password, so whenever `recoverAccount` returns
successfully the engine is authenticated. -/
theorem c1_recover_autologin_establishes_session
    (env : Env) (options : RecoveryOptions) (st : VaultState)
    (result : RecoveryResult)
    (h : (VaultFacade.recoverAccount env options st).1 = .ok result) :
    (RecoverAccountUseCase.execute env options st).2.session = st.session ∧
    VaultFacade.isAuthenticated
      (VaultFacade.recoverAccount env options st).2 = true := by
  refine ⟨(recoverUseCase_preserves env options st).1, ?_⟩
  rcases hR : VaultFacade.recoverAccount env options st with ⟨res, st'⟩
  rw [hR] at h
  simp only at h
  subst h
  simp only [VaultFacade.isAuthenticated, SessionManager.isAuthenticated]
  unfold VaultFacade.recoverAccount at hR
  split at hR
  · simp at hR
  next u hInit =>
    obtain ⟨hDisp, _⟩ := ensureInitialized_ok st (by cases u; exact hInit)
    split at hR
    · simp at hR
    next r st1 hUC =>
      split at hR
      · simp at hR
      next info st2 hLog =>
        rw [Prod.mk.injEq] at hR
        obtain ⟨_, hSt2⟩ := hR
        subst hSt2
        obtain ⟨hSess, hDisp2⟩ := facadeLogin_ok_shape env options.newPassword
          (some r.did) st1 info st2 hLog
        have hDisp1 : st1.isDisposed = st.isDisposed := by
          have := (recoverUseCase_preserves env options st).2.1
          rw [hUC] at this
          exact this
        rw [hSess, hDisp2, hDisp1, hDisp]
        rfl

/-- C1 amended witness: the concrete recovery scenario discharged through
the amended theorem. -/
theorem c1_witness :
    (RecoverAccountUseCase.execute testEnv c1Options exState).2.session =
      exState.session ∧
    VaultFacade.isAuthenticated
      (VaultFacade.recoverAccount testEnv c1Options exState).2 = true :=
  c1_recover_autologin_establishes_session testEnv c1Options exState
    { did := "D", newRecoveryCode := none } (by decide)

/-! ## Claim C2 -/

/-- C2.  When AEAD-opening the stored envelope's main ciphertext with the
supplied password fails — wrong password or tampered bytes alike — login
fails with `AuthenticationError` ("bad password"), never with the
CORRUPT_DATA error, and the two causes are not distinguishable at the API
boundary: the result is one fixed error value for every failing cause, and
the engine state is unchanged. -/
theorem c2_login_decrypt_failure_is_authentication_failed
    (env : Env) (st : VaultState) (password d : String)
    (blob : EncryptedVaultBlob)
    (hd : d ≠ "")
    (hget : Storage.get st.storage d = some blob)
    (hfail : env.crypto.decryptVault (env.fromBase64 blob.wrappedData)
        password = none) :
    LoginUseCase.execute env { password, did := some d } st =
      (.error (.authenticationError "Invalid password or corrupted vault"), st) := by
  unfold LoginUseCase.execute resolveTargetDid
  simp [hd, hget, hfail]

/-- C2 witness: tampering the first ciphertext byte of the persisted
envelope of "D" makes login with the correct password fail with the same
`AuthenticationError` as a wrong password does. -/
theorem c2_witness :
    (Storage.get tamperedState.storage "D" = some tamperedBlob ∧
      testEnv.crypto.decryptVault (testEnv.fromBase64 tamperedBlob.wrappedData)
        "oldpw" = none ∧
      LoginUseCase.execute testEnv { password := "oldpw", did := some "D" }
        tamperedState =
        (.error (.authenticationError "Invalid password or corrupted vault"),
         tamperedState)) ∧
    testEnv.crypto.decryptVault (testEnv.fromBase64 exBlob.wrappedData)
      "wrongpw" = none ∧
    LoginUseCase.execute testEnv { password := "wrongpw", did := some "D" }
      exState =
      (.error (.authenticationError "Invalid password or corrupted vault"),
       exState) := by
  refine ⟨⟨by decide, by decide, ?_⟩, by decide, ?_⟩
  · exact c2_login_decrypt_failure_is_authentication_failed testEnv
      tamperedState "oldpw" "D" tamperedBlob (by decide) (by decide) (by decide)
  · exact c2_login_decrypt_failure_is_authentication_failed testEnv
      exState "wrongpw" "D" exBlob (by decide) (by decide) (by decide)

/-! ## Claim C3 -/

/-- C3.  When the main ciphertext decrypts and parses but the decrypted
payload's inner identifier differs from the storage key under which the
envelope was fetched, login fails with the INTEGRITY_ERROR `VaultError` —
and therefore never with `AuthenticationError`. -/
theorem c3_login_did_mismatch_is_integrity_error
    (env : Env) (st : VaultState) (password d : String)
    (blob : EncryptedVaultBlob) (bytes : Bytes) (payload : VaultInternalData)
    (hd : d ≠ "")
    (hget : Storage.get st.storage d = some blob)
    (hdec : env.crypto.decryptVault (env.fromBase64 blob.wrappedData)
        password = some bytes)
    (hparse : env.parseInternal bytes = some payload)
    (hmismatch : payload.did ≠ d) :
    LoginUseCase.execute env { password, did := some d } st =
      (.error (.vaultError "Integrity error: DID mismatch inside vault"
        "INTEGRITY_ERROR"), st) := by
  unfold LoginUseCase.execute resolveTargetDid
  simp [hd, hget, hdec, hparse, hmismatch]

/-- C3 witness: an envelope stored under "D" whose decrypted payload says
"E" makes login with the correct password fail with INTEGRITY_ERROR. -/
theorem c3_witness :
    LoginUseCase.execute testEnv { password := "oldpw", did := some "D" }
      exStateE =
      (.error (.vaultError "Integrity error: DID mismatch inside vault"
        "INTEGRITY_ERROR"), exStateE) :=
  c3_login_did_mismatch_is_integrity_error testEnv exStateE "oldpw" "D"
    exBlobE (encPayload exPayloadE) exPayloadE (by decide) (by decide)
    (by decide) (by decide) (by decide)

/-! ## Claim C4 -/

/-- C4 counterexample.  With a provider whose private-key unwrap fails
(the very situation the claim quantifies over), a login whose envelope
decrypts correctly, parses, and carries a matching identifier fails with
the adapter's `CryptoError` — not with `AuthenticationError` as the claim
states: `LoginUseCase.execute` has no try/catch around
`crypto.restoreIdentity`. -/
theorem c4_counterexample :
    (LoginUseCase.execute c4Env { password := "oldpw", did := some "D" }
      exState).1 =
      .error (.cryptoError "Failed to restore identity from wrapped secret") := by
  decide

/-- C4 amended.  When the envelope's main ciphertext decrypts correctly
and the payload is well-formed with a matching identifier, but unwrapping
the private key with the derived session key fails, login fails with
`CryptoError` ("Failed to restore identity from wrapped secret"), the
error the crypto adapter throws and the login use case does not catch. -/
theorem c4_login_restore_failure_is_crypto_error
    (env : Env) (st : VaultState) (password d : String)
    (blob : EncryptedVaultBlob) (bytes : Bytes) (payload : VaultInternalData)
    (hd : d ≠ "")
    (hget : Storage.get st.storage d = some blob)
    (hdec : env.crypto.decryptVault (env.fromBase64 blob.wrappedData)
        password = some bytes)
    (hparse : env.parseInternal bytes = some payload)
    (hdid : payload.did = d)
    (hrestore : env.crypto.restoreIdentity (env.fromBase64 payload.wrappedSecret)
        (env.crypto.deriveSessionKey password (env.fromBase64 payload.salt)) = none) :
    LoginUseCase.execute env { password, did := some d } st =
      (.error (.cryptoError "Failed to restore identity from wrapped secret"), st) := by
  unfold LoginUseCase.execute resolveTargetDid
  simp [hd, hget, hdec, hparse, hdid, hrestore]

/-- C4 amended witness: the counterexample scenario discharged through the
amended theorem. -/
theorem c4_witness :
    LoginUseCase.execute c4Env { password := "oldpw", did := some "D" }
      exState =
      (.error (.cryptoError "Failed to restore identity from wrapped secret"),
       exState) :=
  c4_login_restore_failure_is_crypto_error c4Env exState "oldpw" "D" exBlob
    exPayloadBytes exPayload (by decide) (by decide) (by decide) (by decide)
    (by decide) (by decide)

/-! ## Claim C5 -/

/-- Writing back a blob that differs from the fetched one only in
`wrappedData` and `updatedAt` preserves the other four fields of every
stored envelope. -/
theorem get_save_frame (stg : Storage) (k d : String)
    (old stored : EncryptedVaultBlob) (w : String) (t : Nat)
    (hget : Storage.get stg d = some old)
    (heq : Storage.get stg k = some stored) :
    ∃ blob', Storage.get
        (Storage.save stg k { stored with wrappedData := w, updatedAt := t })
        d = some blob' ∧
      blob'.version = old.version ∧ blob'.did = old.did ∧
      blob'.salt = old.salt ∧ blob'.recoveryBlob = old.recoveryBlob := by
  by_cases hdd : k = d
  · subst hdd
    rw [hget] at heq
    injection heq with h3
    subst h3
    refine ⟨{ old with wrappedData := w, updatedAt := t }, ?_, rfl, rfl, rfl, rfl⟩
    rw [Storage.get_save]
    simp
  · exact ⟨old, by rw [Storage.get_save, if_neg hdd]; exact hget, rfl, rfl, rfl, rfl⟩

/-- C5.  `saveSecret` and `deleteSecret` leave the persisted envelope's
`recoveryBlob`, `version`, `did` and `salt` unchanged; only `wrappedData`
and `updatedAt` are rewritten (and no other stored identity is touched
either). -/
theorem c5_secret_mutations_preserve_recovery_fields
    (env : Env) (key value : String) (st : VaultState) (d : String)
    (blob : EncryptedVaultBlob)
    (hget : Storage.get st.storage d = some blob) :
    (∃ blob', Storage.get
        (SecretManagementUseCase.saveSecret env key value st).2.storage d =
          some blob' ∧
        blob'.version = blob.version ∧ blob'.did = blob.did ∧
        blob'.salt = blob.salt ∧ blob'.recoveryBlob = blob.recoveryBlob) ∧
    (∃ blob', Storage.get
        (SecretManagementUseCase.deleteSecret env key st).2.storage d =
          some blob' ∧
        blob'.version = blob.version ∧ blob'.did = blob.did ∧
        blob'.salt = blob.salt ∧ blob'.recoveryBlob = blob.recoveryBlob) := by
  constructor
  · unfold SecretManagementUseCase.saveSecret
    split
    · exact ⟨blob, hget, rfl, rfl, rfl, rfl⟩
    rename_i sess hsess
    dsimp only
    split
    · exact ⟨blob, hget, rfl, rfl, rfl, rfl⟩
    rename_i stored heq
    split
    · exact ⟨blob, hget, rfl, rfl, rfl, rfl⟩
    rename_i bytes hdec
    split
    · exact ⟨blob, hget, rfl, rfl, rfl, rfl⟩
    rename_i payload hparse
    exact get_save_frame st.storage sess.did d blob stored _ _ hget heq
  · unfold SecretManagementUseCase.deleteSecret
    split
    · exact ⟨blob, hget, rfl, rfl, rfl, rfl⟩
    rename_i sess hsess
    dsimp only
    split
    · exact ⟨blob, hget, rfl, rfl, rfl, rfl⟩
    rename_i stored heq
    split
    · exact ⟨blob, hget, rfl, rfl, rfl, rfl⟩
    rename_i bytes hdec
    split
    · exact ⟨blob, hget, rfl, rfl, rfl, rfl⟩
    rename_i payload hparse
    exact get_save_frame st.storage sess.did d blob stored _ _ hget heq

/-- C5 witness: a successful save (and delete) on the authenticated
example engine, discharged through the theorem. -/
theorem c5_witness :
    (∃ blob', Storage.get
        (SecretManagementUseCase.saveSecret testEnv "k2" "v2" exAuthState).2.storage
          "D" = some blob' ∧
        blob'.version = exBlob.version ∧ blob'.did = exBlob.did ∧
        blob'.salt = exBlob.salt ∧ blob'.recoveryBlob = exBlob.recoveryBlob) ∧
    (∃ blob', Storage.get
        (SecretManagementUseCase.deleteSecret testEnv "k2" exAuthState).2.storage
          "D" = some blob' ∧
        blob'.version = exBlob.version ∧ blob'.did = exBlob.did ∧
        blob'.salt = exBlob.salt ∧ blob'.recoveryBlob = exBlob.recoveryBlob) :=
  c5_secret_mutations_preserve_recovery_fields testEnv "k2" "v2" exAuthState
    "D" exBlob (by decide)

/-! ## Claim C6 -/

/-- C6 counterexample.  On a disposed engine, `lock()` succeeds (it is an
unguarded no-op) and `isAuthenticated()` returns `false` without failing —
neither fails with the DISPOSED error, contradicting the claim's "every
subsequent operation — including lock() and is_authenticated()". -/
theorem c6_counterexample :
    (VaultFacade.lock c6State).1 = .ok () ∧
    (VaultFacade.lock c6State).1 ≠ .error disposedError ∧
    VaultFacade.isAuthenticated c6State = false := by
  decide

/-- C6 amended.  After `dispose()`, every guarded operation — `init`,
`register`, `login`, `recoverAccount`, `getDid`, `getStoredIdentities`,
`sign`, `saveSecret`, `getSecret` — fails with the DISPOSED `VaultError`;
but `lock()` succeeds as a no-op and `isAuthenticated()` returns `false`
without failing. -/
theorem c6_dispose_guard_behavior
    (env : Env) (st : VaultState) (password key value : String)
    (did : Option String) (options : RecoveryOptions) (data : Bytes) :
    (VaultFacade.init (VaultFacade.dispose st)).1 = .error disposedError ∧
    (VaultFacade.register env password (VaultFacade.dispose st)).1 =
      .error disposedError ∧
    (VaultFacade.login env password did (VaultFacade.dispose st)).1 =
      .error disposedError ∧
    (VaultFacade.recoverAccount env options (VaultFacade.dispose st)).1 =
      .error disposedError ∧
    VaultFacade.getDid (VaultFacade.dispose st) = .error disposedError ∧
    VaultFacade.getStoredIdentities (VaultFacade.dispose st) =
      .error disposedError ∧
    VaultFacade.sign env data (VaultFacade.dispose st) = .error disposedError ∧
    (VaultFacade.saveSecret env key value (VaultFacade.dispose st)).1 =
      .error disposedError ∧
    VaultFacade.getSecret env key (VaultFacade.dispose st) =
      .error disposedError ∧
    (VaultFacade.lock (VaultFacade.dispose st)).1 = .ok () ∧
    VaultFacade.isAuthenticated (VaultFacade.dispose st) = false := by
  have hD : (VaultFacade.dispose st).isDisposed = true := by
    unfold VaultFacade.dispose
    split <;> simp_all
  refine ⟨?_, ?_, ?_, ?_, ?_, ?_, ?_, ?_, ?_, ?_, ?_⟩ <;>
    simp [VaultFacade.init, VaultFacade.register, VaultFacade.login,
      VaultFacade.recoverAccount, VaultFacade.getDid,
      VaultFacade.getStoredIdentities, VaultFacade.sign,
      VaultFacade.saveSecret, VaultFacade.getSecret, VaultFacade.lock,
      VaultFacade.isAuthenticated, VaultFacade.ensureAuthenticated,
      VaultFacade.ensureInitialized, VaultFacade.ensureNotDisposed,
      SessionManager.isAuthenticated, disposedError, hD]

/-! ## Claim C7 -/

/-- C7 counterexample.  After `SessionManager.clear()`, the buffer that
held the 32 session-key bytes still contains them: `clear` only frees the
WASM client handle and drops the reference, it performs no overwrite of
the JavaScript-side byte buffer (and the cached password string and secret
values are likewise merely unreferenced, not overwritten). -/
theorem c7_counterexample :
    (HeapSession.clear c7State).session = none ∧
    HeapSession.readBuf (HeapSession.clear c7State).heap 0 = some c7Key := by
  decide

/-- C7 amended.  On teardown, `SessionManager.clear` frees the WASM client
handle and drops the session (so the references to the session key, the
password and the secrets are released), but it leaves the JavaScript
buffer heap unchanged: no byte of the session-key buffer is overwritten
before release to the allocator. -/
theorem c7_clear_drops_references_without_wiping
    (st : HeapSessionState) (s : SessionDataRef)
    (h : st.session = some s) :
    (HeapSession.clear st).session = none ∧
    (HeapSession.clear st).heap = st.heap ∧
    (HeapSession.clear st).freedClients = s.client :: st.freedClients := by
  unfold HeapSession.clear
  rw [h]
  exact ⟨rfl, rfl, rfl⟩

/-- C7 amended witness. -/
theorem c7_witness :
    (HeapSession.clear c7State).session = none ∧
    (HeapSession.clear c7State).heap = c7State.heap ∧
    (HeapSession.clear c7State).freedClients = 7 :: c7State.freedClients :=
  c7_clear_drops_references_without_wiping c7State
    { client := 7, sessionKeyRef := 0, did := "D", password := "oldpw",
      secrets := [("k", "v")] } (by decide)

/-! ## Claim C8 -/

/-- C8.  `saveSecret` updates the session cache before the store write:
when the persisted blob is missing at the store read, the call fails with
the STORAGE_ERROR `VaultError`, yet the still-authenticated session's
cache already holds the new value, so a subsequent `getSecret` returns
it — the cache is ahead of storage after a failed save. -/
theorem c8_save_failure_leaves_cache_ahead
    (env : Env) (key value : String) (st : VaultState) (sess : SessionData)
    (hsess : st.session = some sess)
    (hmiss : Storage.get st.storage sess.did = none) :
    SecretManagementUseCase.saveSecret env key value st =
      (.error (.vaultError "Storage corruption during save" "STORAGE_ERROR"),
       { st with session :=
          (some { sess with secrets := recSet sess.secrets key value }) }) ∧
    SecretManagementUseCase.getSecret
      (SecretManagementUseCase.saveSecret env key value st).2 key =
      .ok (some value) := by
  constructor
  · unfold SecretManagementUseCase.saveSecret
    rw [hsess]
    simp [hmiss]
  · unfold SecretManagementUseCase.getSecret SecretManagementUseCase.saveSecret
    rw [hsess]
    simp [hmiss, SessionManager.isAuthenticated, SessionManager.getSecret,
      recGet_recSet]

/-- C8 witness: the authenticated engine whose storage is empty. -/
theorem c8_witness :
    SecretManagementUseCase.saveSecret testEnv "k2" "v2" c8State =
      (.error (.vaultError "Storage corruption during save" "STORAGE_ERROR"),
       { c8State with session :=
          (some { exSession with
                   secrets := recSet exSession.secrets "k2" "v2" }) }) ∧
    SecretManagementUseCase.getSecret
      (SecretManagementUseCase.saveSecret testEnv "k2" "v2" c8State).2 "k2" =
      .ok (some "v2") :=
  c8_save_failure_leaves_cache_ahead testEnv "k2" "v2" c8State exSession
    (by decide) (by decide)

/-! ## Claim C9 -/

/-- C9.  An empty-string identifier is treated exactly as an absent one by
both login and recover: the call is literally equal to the identifier-less
call (so it falls back to the first key of the store's list operation),
and it fails with `AuthenticationError` exactly when the store is
empty. -/
theorem c9_empty_identifier_equals_absent
    (env : Env) (st : VaultState) (password rc npw : String) (rot : Bool) :
    LoginUseCase.execute env { password, did := some "" } st =
      LoginUseCase.execute env { password, did := none } st ∧
    RecoverAccountUseCase.execute env
        { recoveryCode := rc, newPassword := npw, did := some "",
          rotateRecoveryCode := rot } st =
      RecoverAccountUseCase.execute env
        { recoveryCode := rc, newPassword := npw, did := none,
          rotateRecoveryCode := rot } st ∧
    (Storage.listKeys st.storage = [] →
      (LoginUseCase.execute env { password, did := some "" } st).1 =
        .error (.authenticationError "No identities found in storage") ∧
      (RecoverAccountUseCase.execute env
        { recoveryCode := rc, newPassword := npw, did := some "",
          rotateRecoveryCode := rot } st).1 =
        .error (.authenticationError "No vaults found")) := by
  refine ⟨rfl, rfl, fun hempty => ⟨?_, ?_⟩⟩
  · unfold LoginUseCase.execute resolveTargetDid
    simp [hempty]
  · unfold RecoverAccountUseCase.execute resolveTargetDid
    simp [hempty]

/-- C9 witness: on an engine with empty storage, the empty-string login
equals the identifier-less login and fails with the no-identities
authentication error. -/
theorem c9_witness :
    LoginUseCase.execute testEnv { password := "pw", did := some "" }
      emptyStoreState =
      LoginUseCase.execute testEnv { password := "pw", did := none }
        emptyStoreState ∧
    (LoginUseCase.execute testEnv { password := "pw", did := some "" }
      emptyStoreState).1 =
      .error (.authenticationError "No identities found in storage") := by
  refine ⟨(c9_empty_identifier_equals_absent testEnv emptyStoreState "pw"
    "rc" "npw" false).1, ?_⟩
  exact ((c9_empty_identifier_equals_absent testEnv emptyStoreState "pw"
    "rc" "npw" false).2.2 (by decide)).1

/-! ## Claim C10 -/

/-- C10.  Guard precedence: a disposed engine fails every guarded
operation with the DISPOSED error regardless of its other flags; an
initialized but locked engine fails session-requiring operations with
`NotAuthenticatedError`; and `saveSecret` / `getSecret` on a
never-initialized (undisposed) engine fail with `InitializationError`,
not `NotAuthenticatedError`. -/
theorem c10_guard_precedence
    (env : Env) (st : VaultState) (password key value : String)
    (did : Option String) (data : Bytes) :
    (st.isDisposed = true →
      (VaultFacade.login env password did st).1 = .error disposedError ∧
      (VaultFacade.saveSecret env key value st).1 = .error disposedError ∧
      VaultFacade.getSecret env key st = .error disposedError ∧
      VaultFacade.sign env data st = .error disposedError ∧
      VaultFacade.getDid st = .error disposedError) ∧
    (st.isDisposed = false → st.isInitialized = true → st.session = none →
      (VaultFacade.saveSecret env key value st).1 =
        .error .notAuthenticatedError ∧
      VaultFacade.getSecret env key st = .error .notAuthenticatedError ∧
      VaultFacade.sign env data st = .error .notAuthenticatedError ∧
      VaultFacade.getDid st = .error .notAuthenticatedError) ∧
    (st.isDisposed = false → st.isInitialized = false →
      (VaultFacade.saveSecret env key value st).1 = .error uninitializedError ∧
      VaultFacade.getSecret env key st = .error uninitializedError) := by
  refine ⟨fun h1 => ?_, fun h1 h2 h3 => ?_, fun h1 h2 => ?_⟩
  · simp [VaultFacade.login, VaultFacade.saveSecret, VaultFacade.getSecret,
      VaultFacade.sign, VaultFacade.getDid, VaultFacade.ensureAuthenticated,
      VaultFacade.ensureInitialized, VaultFacade.ensureNotDisposed,
      disposedError, h1]
  · simp [VaultFacade.saveSecret, VaultFacade.getSecret, VaultFacade.sign,
      VaultFacade.getDid, VaultFacade.ensureAuthenticated,
      VaultFacade.ensureInitialized, VaultFacade.ensureNotDisposed,
      SecretManagementUseCase.saveSecret, SecretManagementUseCase.getSecret,
      SessionManager.isAuthenticated, SessionManager.getDid, h1, h2, h3]
  · simp [VaultFacade.saveSecret, VaultFacade.getSecret,
      VaultFacade.ensureInitialized, VaultFacade.ensureNotDisposed,
      uninitializedError, h1, h2]

/-- C10 witness: the three guard situations at concrete states — disposed
(and also uninitialized, sessionless), initialized-but-locked, and
never-initialized. -/
theorem c10_witness :
    (VaultFacade.login testEnv "pw" none c10Disposed).1 =
      .error disposedError ∧
    (VaultFacade.saveSecret testEnv "k" "v" c10Locked).1 =
      .error .notAuthenticatedError ∧
    (VaultFacade.saveSecret testEnv "k" "v" c10Uninit).1 =
      .error uninitializedError := by
  refine ⟨?_, ?_, ?_⟩
  · exact ((c10_guard_precedence testEnv c10Disposed "pw" "k" "v" none []).1
      rfl).1
  · exact (((c10_guard_precedence testEnv c10Locked "pw" "k" "v" none []).2.1)
      rfl rfl rfl).1
  · exact (((c10_guard_precedence testEnv c10Uninit "pw" "k" "v" none []).2.2)
      rfl rfl).1

end P47h
